import Mathlib

/-!
Shallow embedding of the FractalTrader core, for checking the repository's
specification against its code.

Embedded modules (translated from the Python source):
* `src/live/state_manager.py`       — `TradingState`, `StateManager` save/load,
  backup rotation and corruption recovery.
* `src/live/hl_integration/testnet.py` — `HyperliquidTestnetTrader`: the trading
  iteration, circuit breakers, position monitoring, order placement and its
  error taxonomy, exchange synchronisation fallbacks.
* `src/data/hyperliquid_fetcher.py` — `fetch_ohlcv` / `_candles_to_dataframe`.
* `src/notebooks/setup_detector.py` — `_calculate_setup_confidence`.
* `src/risk/position_sizing.py` and `src/risk/confidence.py` are imported by
  the repository (`risk/__init__.py`, the traders) but their sources are not
  present under `src/`; those two are modelled from the spec and say so in
  their doc comments.

Python floats are modelled as exact rationals (`ℚ`); the arithmetic involved is
comparisons and linear expressions on human-scale numbers, where the float/ℚ
distinction does not affect any of the statements proved here.  `datetime`
values are modelled by their ISO-format rendering (for serialization) or by an
abstract day counter (for the daily circuit breakers).
-/

set_option maxHeartbeats 1000000

/-- A JSON value, as produced by Python's `json.load` and consumed by
`json.dump`.  Python dicts coming from JSON are association lists of
string keys (insertion-ordered, unique keys). -/
inductive JsonVal where
  | null
  | bool (b : Bool)
  | num (q : ℚ)
  | str (s : String)
  | arr (xs : List JsonVal)
  | obj (fields : List (String × JsonVal))

/-- The `src/live/state_manager.py` — dataclass `TradingState`.

The collection fields hold JSON values: every entry enters the store through
`save_position` / `save_trade` (which serialize `datetime` fields to ISO
strings) or through `from_dict` on parsed JSON, so the persisted state is
JSON-valued.  `open_positions` is a dict symbol → position dict;
`trade_history` a list of trade dicts. -/
structure TradingState where
  open_positions : List (String × JsonVal)
  trade_history : List JsonVal
  starting_balance : ℚ
  session_start : String
  last_updated : String
  metadata : List (String × JsonVal)

/-- The `TradingState()` — all fields defaulted (empty state). -/
def TradingState.empty : TradingState :=
  { open_positions := []
    trade_history := []
    starting_balance := 0
    session_start := ""
    last_updated := ""
    metadata := [] }

/-- The `TradingState.to_dict` = `dataclasses.asdict`, in field order. -/
def TradingState.to_dict (s : TradingState) : JsonVal :=
  .obj [("open_positions", .obj s.open_positions),
        ("trade_history", .arr s.trade_history),
        ("starting_balance", .num s.starting_balance),
        ("session_start", .str s.session_start),
        ("last_updated", .str s.last_updated),
        ("metadata", .obj s.metadata)]

def decodeObj : JsonVal → Option (List (String × JsonVal))
  | .obj l => some l
  | _ => none

def decodeArr : JsonVal → Option (List JsonVal)
  | .arr l => some l
  | _ => none

def decodeNum : JsonVal → Option ℚ
  | .num q => some q
  | _ => none

def decodeStr : JsonVal → Option String
  | .str s => some s
  | _ => none

/-- First value bound to key `k` (Python dict lookup; keys are unique). -/
def lookupKey {α : Type} (l : List (String × α)) (k : String) : Option α :=
  match l with
  | [] => none
  | (k', v) :: t => if k' = k then some v else lookupKey t k

/-- The `TradingState` field names, in declaration order. -/
def tradingStateKeys : List String :=
  ["open_positions", "trade_history", "starting_balance",
   "session_start", "last_updated", "metadata"]

/-- The `TradingState.from_dict(data)` = `cls(**data)`: fails unless `data` is a
dict whose keys all name dataclass fields; missing keys take the field
default.  (Python performs no run-time type check on the field values; the
shape checks here are the typed refinement of that, and they agree with
Python on every value in `to_dict`'s image, which is all this file needs.) -/
def TradingState.from_dict (j : JsonVal) : Option TradingState := do
  let fields ← decodeObj j
  if fields.all (fun kv => tradingStateKeys.contains kv.1) then
    let op ← (lookupKey fields "open_positions").getD (.obj []) |> decodeObj
    let th ← (lookupKey fields "trade_history").getD (.arr []) |> decodeArr
    let sb ← (lookupKey fields "starting_balance").getD (.num 0) |> decodeNum
    let ss ← (lookupKey fields "session_start").getD (.str "") |> decodeStr
    let lu ← (lookupKey fields "last_updated").getD (.str "") |> decodeStr
    let md ← (lookupKey fields "metadata").getD (.obj []) |> decodeObj
    pure { open_positions := op, trade_history := th, starting_balance := sb,
           session_start := ss, last_updated := lu, metadata := md }
  else
    none

theorem from_dict_to_dict (s : TradingState) :
    TradingState.from_dict s.to_dict = some s := rfl

/-- A Python value appearing in a position/trade dict handed to the store:
either a `datetime` (carrying its `isoformat()` rendering) or an
already-JSON-serializable value.  (`_serialize_position` / `_serialize_trade`
also special-case objects with a `to_dict` method; such values enter this
model through the `json` constructor carrying the dict they serialize to.) -/
inductive PyVal where
  | datetime (iso : String)
  | json (j : JsonVal)

/-- The `StateManager._serialize_trade` (and the identical `_serialize_position`):
shallow-copies the dict, replacing each top-level `datetime` value by its
`isoformat()` string.  Nested values are not rewritten. -/
def serialize_trade (trade_data : List (String × PyVal)) : List (String × JsonVal) :=
  trade_data.map fun kv =>
    match kv.2 with
    | .datetime iso => (kv.1, .str iso)
    | .json j => (kv.1, j)

/-- The `StateManager.save_trade`: appends the serialized trade to
`state.trade_history` (and touches `last_updated`). -/
def save_trade (now_iso : String) (trade_data : List (String × PyVal))
    (s : TradingState) : TradingState :=
  { s with trade_history := s.trade_history ++ [.obj (serialize_trade trade_data)]
           last_updated := now_iso }

/-- The `StateManager.save_position`: stores the serialized position dict under
the symbol (Python dict assignment: replace if present, else append). -/
def save_position (now_iso : String) (symbol : String)
    (position_data : List (String × PyVal)) (s : TradingState) : TradingState :=
  let v : JsonVal := .obj (serialize_trade position_data)
  let ops :=
    if (lookupKey s.open_positions symbol).isSome then
      s.open_positions.map fun kv => if kv.1 = symbol then (kv.1, v) else kv
    else
      s.open_positions ++ [(symbol, v)]
  { s with open_positions := ops, last_updated := now_iso }

/-- On-disk content of one file, as seen through `json.load`: the file may be
absent, unreadable-or-malformed (`json.load` raises), or hold a JSON value. -/
inductive FileContent where
  | absent
  | corrupt
  | content (j : JsonVal)

/-- The files a `StateManager` touches: the primary state file and the
backup chain (`index i` holds `.json.bak(i+1)`, most recent first). -/
structure StateFiles where
  primary : FileContent
  backups : List FileContent

/-- The `StateManager._create_backup`: rotates `.bak i` → `.bak (i+1)` for
`i = backup_count-1 … 1`, then copies the primary into `.bak1`; the oldest
backup falls off the end.  No-op when the primary file does not exist. -/
def create_backup (backup_count : ℕ) (fs : StateFiles) : StateFiles :=
  match fs.primary with
  | .absent => fs
  | _ => { fs with backups := fs.primary :: fs.backups.take (backup_count - 1) }

/-- The `StateManager._save_state`: acquires the file lock with a 10 s bound
(`lockTimeout = true` models `filelock.Timeout` on acquire), then backs up the
existing primary and writes `json.dump(state.to_dict())`.  Both `Timeout` and
any other exception are caught and logged, so the function always returns;
a timed-out save leaves every file unchanged. -/
def save_state (backup_count : ℕ) (lockTimeout : Bool) (s : TradingState)
    (fs : StateFiles) : StateFiles :=
  if lockTimeout then fs
  else
    let fs := create_backup backup_count fs
    { fs with primary := .content s.to_dict }

/-- The `StateManager._try_recover_from_backup`: walks `.bak1, .bak2, …` in order
and restores the first backup whose `json.load` succeeds as the new primary
(shape of the JSON is not checked here); returns `none` when no backup
parses — or when the lock times out, which makes every attempt `continue`. -/
def try_recover_from_backup (lockTimeout : Bool) (fs : StateFiles) :
    Option StateFiles :=
  if lockTimeout then none
  else
    match fs.backups.findSome? (fun fc => match fc with
      | .content j => some j
      | _ => none) with
    | some j => some { fs with primary := .content j }
    | none => none

/-- The `StateManager._load_or_create_state`.  The Python body recurses after a
successful backup restore; `fuel` bounds that recursion (Python's own bound is
the interpreter recursion limit), and `none` models the load blowing up with
`RecursionError` instead of returning a state.  A lock timeout on the primary
read is caught and falls through to "Creating new state" without attempting
backup recovery. -/
def load_or_create_state (backup_count : ℕ) (lockTimeout : Bool) :
    ℕ → StateFiles → Option (TradingState × StateFiles)
  | 0, _ => none
  | Nat.succ fuel, fs =>
    match fs.primary with
    | .absent => some (TradingState.empty, fs)
    | .corrupt =>
      if lockTimeout then some (TradingState.empty, fs)
      else
        match try_recover_from_backup lockTimeout fs with
        | some fs' => load_or_create_state backup_count lockTimeout fuel fs'
        | none => some (TradingState.empty, fs)
    | .content j =>
      if lockTimeout then some (TradingState.empty, fs)
      else
        match TradingState.from_dict j with
        | some s => some (s, fs)
        | none =>
          match try_recover_from_backup lockTimeout fs with
          | some fs' => load_or_create_state backup_count lockTimeout fuel fs'
          | none => some (TradingState.empty, fs)

/-- The `src/risk/position_sizing.py` — dataclass `RiskParameters`
(constructed in `testnet.py` from the config's `base_risk_percent`,
`max_position_percent`, `min_confidence`). -/
structure RiskParameters where
  base_risk_percent : ℚ
  max_position_percent : ℚ
  min_confidence : ℚ

/-- Modelled from the spec: `calculate_position_size` of
`src/risk/position_sizing.py`, whose source is not under `src/` (only its
callers and `risk/__init__.py` are).  Spec §4.6: returns 0 when
`confidence_score < params.min_confidence`; base risk amount =
`portfolio_value × base_risk_percent`, scaled down when
`current_atr/baseline_atr > 1` (inverse-volatility) and reduced after
consecutive losses; size =
`min(risk_amount / |entry − stop|, portfolio_value × max_position_percent / entry)`. -/
def calculate_position_size (portfolio_value entry_price stop_loss_price
    confidence_score current_atr baseline_atr : ℚ)
    (consecutive_wins consecutive_losses : ℕ)
    (params : RiskParameters) : ℚ :=
  let _ := consecutive_wins
  if confidence_score < params.min_confidence then 0
  else
    let vol_scale : ℚ :=
      if 0 < baseline_atr ∧ baseline_atr < current_atr then baseline_atr / current_atr else 1
    let streak_scale : ℚ := 1 / (1 + (consecutive_losses : ℚ))
    let risk_amount := portfolio_value * params.base_risk_percent * vol_scale * streak_scale
    let stop_distance := |entry_price - stop_loss_price|
    if stop_distance = 0 then 0
    else
      min (risk_amount / stop_distance)
        (portfolio_value * params.max_position_percent / entry_price)

/-- Modelled from the spec: dataclass `ConfidenceFactors` of
`src/risk/confidence.py`, whose source is not under `src/` (only
`risk/__init__.py` imports it).  Spec §3/§4.4. -/
structure ConfidenceFactors where
  htf_trend_aligned : Bool
  htf_structure_clean : Bool
  pattern_clean : Bool
  multiple_confluences : ℕ
  volume_spike : Bool
  volume_divergence : Bool
  trending_market : Bool
  low_volatility : Bool

/-- Modelled from the spec: `ConfidenceFactors.calculate_score` (source not
under `src/`).  Spec §4.4 weights: HTF alignment +15, HTF structure clean +15,
pattern clean +10, confluences +5×count capped at +20, volume spike +10,
volume divergence +10, trending market +10, low volatility +10; total capped
at 100 and floored at 0. -/
def ConfidenceFactors.calculate_score (f : ConfidenceFactors) : ℚ :=
  let w : Bool → ℚ → ℚ := fun b q => if b then q else 0
  let total :=
    w f.htf_trend_aligned 15 + w f.htf_structure_clean 15 +
    w f.pattern_clean 10 + min 20 (5 * (f.multiple_confluences : ℚ)) +
    w f.volume_spike 10 + w f.volume_divergence 10 +
    w f.trending_market 10 + w f.low_volatility 10
  min 100 (max 0 total)

/-- The `src/notebooks/setup_detector.py` — `SetupDetector._calculate_setup_confidence`.
Inputs are the values the body reads: the strategy factors' `total_score`,
whether the HTF bias matched the signal type (+5), whether volume confirmed
(+3), and whether anything in the body raised (`errored`, the `except` path
returning 0).  Returns `min(100, max(0, confidence))`. -/
def calculate_setup_confidence (total_score : ℚ) (htf_bias_matches : Bool)
    (volume_confirmed : Bool) (errored : Bool) : ℚ :=
  if errored then 0
  else
    let confidence := total_score
    let confidence := if htf_bias_matches then confidence + 5 else confidence
    let confidence := if volume_confirmed then confidence + 3 else confidence
    min 100 (max 0 confidence)

/-- The `src/data/hyperliquid_fetcher.py` — one candle dict as returned by
`info.candles_snapshot` (fields read by `_candles_to_dataframe`). -/
structure HLCandle where
  t : ℕ
  o : ℚ
  high : ℚ
  low : ℚ
  c : ℚ
  v : ℚ
deriving DecidableEq, Repr

/-- One row of the produced DataFrame: the `timestamp` index plus the five
OHLCV columns. -/
structure CandleRow where
  timestamp : ℕ
  open_ : ℚ
  high : ℚ
  low : ℚ
  close : ℚ
  volume : ℚ
deriving DecidableEq, Repr

/-- A pandas DataFrame as used here: its column names plus its rows. -/
structure CandleFrame where
  columns : List String
  rows : List CandleRow
deriving DecidableEq, Repr

def ohlcvColumns : List String := ["open", "high", "low", "close", "volume"]

def rowLE (a b : CandleRow) : Prop := a.timestamp ≤ b.timestamp

instance : DecidableRel rowLE := fun a b => Nat.decLe a.timestamp b.timestamp

instance : IsTotal CandleRow rowLE := ⟨fun a b => Nat.le_total a.timestamp b.timestamp⟩

instance : IsTrans CandleRow rowLE := ⟨fun _ _ _ => Nat.le_trans⟩

/-- The `HyperliquidFetcher._empty_dataframe`. -/
def empty_dataframe : CandleFrame := { columns := ohlcvColumns, rows := [] }

/-- The `HyperliquidFetcher._candles_to_dataframe`: one row per candle (float
conversion of the o/h/l/c/v strings, `t` as the time index), then
`sort_index()` — a stable sort ascending by timestamp.  No deduplication is
performed anywhere in the body. -/
def candles_to_dataframe (candles : List HLCandle) : CandleFrame :=
  match candles with
  | [] => empty_dataframe
  | _ =>
    let rows := candles.map fun cd =>
      { timestamp := cd.t, open_ := cd.o, high := cd.high, low := cd.low,
        close := cd.c, volume := cd.v : CandleRow }
    { columns := ohlcvColumns, rows := rows.insertionSort rowLE }

/-- What a call to `fetch_ohlcv` returns to its caller: a `ValueError`, a
`ConnectionError`, or a DataFrame. -/
inductive FetchResult where
  | valueError (msg : String)
  | connectionError (msg : String)
  | ok (df : CandleFrame)
deriving Repr

def TIMEFRAME_MAP : List String := ["1m", "5m", "15m", "1h", "4h", "1d"]

def MAX_CANDLES : ℕ := 5000

/-- The `HyperliquidFetcher.fetch_ohlcv`.  The venue call
`info.candles_snapshot(...)` is the external collaborator; its outcome is the
`api` argument (`Except.error` = the SDK raised, `Except.ok` = the candle
list it returned — for an unknown symbol the venue yields an empty list or an
SDK error; `fetch_ohlcv` itself never validates the symbol).  `since` handling
and the start-time arithmetic only shape the request, not the result, and are
omitted.  `validate_dataframe` (from the `BaseFetcher` base class, not under
`src/`) checks columns/index/non-emptiness of an already-built frame and is a
no-op on every frame built here; it is not modelled. -/
def fetch_ohlcv (timeframe : String) (limit : Option ℕ)
    (api : Except String (List HLCandle)) : FetchResult :=
  if ¬ TIMEFRAME_MAP.contains timeframe then
    .valueError ("Invalid timeframe: " ++ timeframe)
  else
    let lim := match limit with
      | none => 1000
      | some l => if l > MAX_CANDLES then MAX_CANDLES else l
    match api with
    | .error e => .connectionError ("Hyperliquid API error: " ++ e)
    | .ok candles =>
      if candles = [] then .ok empty_dataframe
      else
        let df := candles_to_dataframe candles
        let df :=
          if df.rows.length > lim then
            { df with rows := df.rows.drop (df.rows.length - lim) }
          else df
        .ok df

/-- The `strategies.base.Signal` as consumed by `testnet.py` (the strategy module
itself is out of the embedded surface; the trader reads exactly these
fields: `direction` (+1 long / −1 short), `entry_price`, `stop_loss`,
`take_profit`, `confidence`). -/
structure Signal where
  direction : ℤ
  entry_price : ℚ
  stop_loss : ℚ
  take_profit : ℚ
  confidence : ℚ
deriving DecidableEq, Repr

/-- A position dict as built by `_place_order` (all keys present, `signal`
set) or by `_sync_positions_with_exchange` (`signal`, `stop_loss`,
`take_profit` all `None`). -/
structure Position where
  signal : Option Signal
  size : ℚ
  entry_price : ℚ
  stop_loss : Option ℚ
  take_profit : Option ℚ
  unrealized_pnl : ℚ
deriving DecidableEq, Repr

/-- A trade dict as built by `_place_order` (status `"OPEN"`); `_close_position`
fills `exit_price` / `pnl` / `close_reason` / `close_day` and flips the status
to `"CLOSED"`.  `timestamp_day` abstracts `datetime.now()` to the calendar day
used by `_count_today_trades`. -/
structure Trade where
  timestamp_day : ℕ
  symbol : String
  direction : String
  size : ℚ
  entry_price : ℚ
  stop_loss : ℚ
  confidence : ℚ
  status : String
  exit_price : Option ℚ
  pnl : Option ℚ
  close_reason : Option String
  close_day : Option ℕ
deriving DecidableEq, Repr

/-- The mutable fields of `HyperliquidTestnetTrader` that the trading
iteration reads or writes.  `max_daily_drawdown` and `max_daily_trades` are
set in `__init__` (0.20 and 50 on testnet) but carried as state so the
embedding covers any configured value. -/
structure TraderState where
  open_positions : List (String × Position)
  trade_history : List Trade
  starting_balance : ℚ
  max_daily_drawdown : ℚ
  max_daily_trades : ℕ
  circuit_breaker_triggered : Bool
  circuit_breaker_date : ℕ
  is_running : Bool
  simulation_mode : Bool
deriving DecidableEq, Repr

/-- The configuration fields of `HyperliquidConfig` the iteration reads
(`live/hyperliquid/config.py`), plus the `RiskParameters` built from it. -/
structure TraderConfig where
  default_symbol : String
  min_confidence : ℚ
  max_open_positions : ℕ
  limit_price_offset_percent : ℚ
  risk_params : RiskParameters

/-- Outcome of the one external `exchange.order(...)` call inside
`_place_order`: returned a dict with `status == 'ok'`, returned something
else, or raised (with the given message, compared lowercased by the code —
the model takes `msg` already lowercased). -/
inductive OrderOutcome where
  | ok
  | failStatus
  | raised (msg : String)

/-- The external world during one tick: the clock day, the venue's account
value as reported by `_get_actual_portfolio_value` (an external `user_state`
call; read only when the trader is NOT in simulation mode — in simulation
mode `_get_portfolio_value` computes the balance from the trader state
instead, see `get_portfolio_value`), per-symbol prices (`get_current_price`;
0 on fetch failure), the outcome of `fetch_ohlcv` (`Except.error` = it
raised with that message, lowercased), the strategy's signals over the
fetched data, the ATR values computed from it, and the order call's
outcome. -/
structure TickEnv where
  today : ℕ
  portfolio_value : ℚ
  current_price : String → ℚ
  fetch_result : Except String Unit
  signals : List Signal
  current_atr : ℚ
  baseline_atr : ℚ
  order_result : OrderOutcome

/-- Character-list infix test (Python's `keyword in error_msg`). -/
def charsContain (needle : List Char) : List Char → Bool
  | [] => needle.isEmpty
  | c :: t => needle.isPrefixOf (c :: t) || charsContain needle t

/-- The `needle in hay` on strings. -/
def strContains (hay needle : String) : Bool :=
  charsContain needle.toList hay.toList

/-- The `any(keyword in error_msg for keyword in keywords)`. -/
def anyKeyword (msg : String) (keywords : List String) : Bool :=
  keywords.any fun kw => strContains msg kw

/-- The `_place_order`'s critical vocabulary (checked first). -/
def critical_keywords : List String :=
  ["invalid", "unauthorized", "forbidden", "insufficient", "locked"]

/-- The `_place_order`'s transient vocabulary. -/
def place_transient_keywords : List String :=
  ["timeout", "connection", "network", "temporary", "rate limit", "unavailable"]

/-- The `_trading_iteration`'s generic-handler transient vocabulary (note: no
"unavailable" here, unlike `_place_order`'s list). -/
def iteration_transient_keywords : List String :=
  ["timeout", "connection", "network", "temporary", "rate limit"]

/-- Python's `round` (banker's rounding, half to even) on an exact rational. -/
def roundHalfEven (q : ℚ) : ℤ :=
  let f := ⌊q⌋
  let r := q - f
  if r < 1/2 then f
  else if 1/2 < r then f + 1
  else if f % 2 = 0 then f else f + 1

/-- The `round(q, n)` — on the exact rational (the float-representation artefacts
of CPython's two-argument `round` are not modelled; no statement below
depends on a half-way rounding case). -/
def roundToDigits (q : ℚ) (n : ℕ) : ℚ :=
  (roundHalfEven (q * 10 ^ n) : ℚ) / 10 ^ n

/-- The `HyperliquidTestnetTrader._round_to_tick_size`: per-asset tick table,
integer rounding for tick ≥ 1, otherwise rounding to the tick's decimal
precision; unknown symbols default to 0.01. -/
def round_to_tick_size (symbol : String) (price : ℚ) : ℚ :=
  if symbol = "BTC" then (roundHalfEven price : ℚ)
  else if symbol = "ETH" then roundToDigits price 1
  else if symbol = "SOL" ∨ symbol = "AVAX" ∨ symbol = "LINK" then roundToDigits price 2
  else if symbol = "DOGE" then roundToDigits price 5
  else if symbol = "XRP" ∨ symbol = "MATIC" ∨ symbol = "ARB" then roundToDigits price 4
  else if symbol = "OP" then roundToDigits price 3
  else roundToDigits price 2

/-- The `_count_today_trades`: trades whose timestamp falls on today's date. -/
def count_today_trades (today : ℕ) (th : List Trade) : ℕ :=
  (th.filter fun t => t.timestamp_day == today).length

/-- Helper for the win/loss streaks: walk the reversed history, counting
while the predicate holds and stopping at the first trade that breaks it. -/
def streakFrom (p : Trade → Bool) : List Trade → ℕ
  | [] => 0
  | t :: ts => if p t then streakFrom p ts + 1 else 0

/-- The `_count_consecutive_wins` (`trade.get("pnl", 0) > 0` from the end). -/
def count_consecutive_wins (th : List Trade) : ℕ :=
  streakFrom (fun t => decide (0 < t.pnl.getD 0)) th.reverse

/-- The `_count_consecutive_losses` (`trade.get("pnl", 0) < 0` from the end). -/
def count_consecutive_losses (th : List Trade) : ℕ :=
  streakFrom (fun t => decide (t.pnl.getD 0 < 0)) th.reverse

/-- The `HyperliquidTestnetTrader._get_simulated_portfolio_value`: the
starting balance, plus the unrealized P&L of every tracked open position,
plus the realized P&L of every trade whose status equals the lowercase
`"closed"` — trades are recorded with status `"CLOSED"`, so recorded
realized P&L never actually matches this comparison — floored at 0. -/
def get_simulated_portfolio_value (st : TraderState) : ℚ :=
  let value := st.starting_balance
    + (st.open_positions.map fun p => p.2.unrealized_pnl).sum
    + (st.trade_history.map fun t =>
        if t.status == "closed" then t.pnl.getD 0 else 0).sum
  max 0 value

/-- The `HyperliquidTestnetTrader._get_portfolio_value`: in simulation mode
the balance is computed from the trader state itself
(`_get_simulated_portfolio_value`); otherwise it is the venue's reported
account value (`_get_actual_portfolio_value`, supplied by the
environment). -/
def get_portfolio_value (env : TickEnv) (st : TraderState) : ℚ :=
  if st.simulation_mode then get_simulated_portfolio_value st
  else env.portfolio_value

/-- The `HyperliquidTestnetTrader._check_circuit_breakers`: resets the breaker
flag on a date change, then returns `false` (trading must not continue) when
the flag is already set, when the drawdown of `_get_portfolio_value()`
against `starting_balance` exceeds `max_daily_drawdown`, or when today's
trade count exceeds `max_daily_trades`.  The two trips also call `stop()`
(`is_running := false`; the `force_save` and summary printing inside `stop`
touch no trader state modelled here). -/
def check_circuit_breakers (env : TickEnv) (st : TraderState) :
    Bool × TraderState :=
  let st :=
    if env.today ≠ st.circuit_breaker_date then
      { st with circuit_breaker_date := env.today, circuit_breaker_triggered := false }
    else st
  if st.circuit_breaker_triggered then (false, st)
  else
    let current_balance := get_portfolio_value env st
    let drawdown :=
      if 0 < st.starting_balance then
        (st.starting_balance - current_balance) / st.starting_balance
      else 0
    if st.max_daily_drawdown < drawdown then
      (false, { st with circuit_breaker_triggered := true, is_running := false })
    else if st.max_daily_trades < count_today_trades env.today st.trade_history then
      (false, { st with circuit_breaker_triggered := true, is_running := false })
    else (true, st)

/-- Direction resolution used by `_monitor_positions` and `_close_position`:
long iff the stored signal says `direction == 1`, and long by fallback when
the position carries no signal. -/
def is_long_position (position : Position) : Bool :=
  match position.signal with
  | some s => s.direction == 1
  | none => true

/-- In-place update of the first matching element (used for the
`for trade in reversed(self.trade_history)` scan). -/
def updateFirstTrade (p : Trade → Bool) (f : Trade → Trade) :
    List Trade → List Trade
  | [] => []
  | t :: ts => if p t then f t :: ts else t :: updateFirstTrade p f ts

/-- The `_close_position`'s history walk: find the newest trade for `symbol`
with status `"OPEN"` and close it in place. -/
def close_trade_in_history (today : ℕ) (symbol : String)
    (exit_price pnl : ℚ) (reason : String) (th : List Trade) : List Trade :=
  (updateFirstTrade
    (fun t => t.symbol == symbol && t.status == "OPEN")
    (fun t => { t with exit_price := some exit_price, pnl := some pnl,
                       status := "CLOSED", close_reason := some reason,
                       close_day := some today })
    th.reverse).reverse

/-- The `HyperliquidTestnetTrader._close_position`: no-op when the symbol is not
open; otherwise computes realized P&L direction-aware, places a venue close
order (non-simulation; wrapped in try/except, so it cannot change local
state and is not modelled), closes the newest open trade for the symbol,
and deletes the position.  The `force_save` to the state store acts on the
`StateManager` model, not on these fields. -/
def close_position (env : TickEnv) (symbol : String) (exit_price : ℚ)
    (reason : String) (st : TraderState) : TraderState :=
  match lookupKey st.open_positions symbol with
  | none => st
  | some position =>
    let entry_price := position.entry_price
    let size := position.size
    let is_long := is_long_position position
    let pnl := if is_long then (exit_price - entry_price) * size
               else (entry_price - exit_price) * size
    { st with
      trade_history :=
        close_trade_in_history env.today symbol exit_price pnl reason st.trade_history
      open_positions := st.open_positions.filter fun p => !(p.1 == symbol) }

/-- The body of `_monitor_positions`'s loop for one snapshot entry
`(symbol, position)`: skip on a non-positive price; stop-loss check first
(Python truthiness: a `None` or `0.0` stop is skipped), then take-profit,
else an unrealized-P&L update in simulation mode (mutating the position
object in place, which is invisible if the position was already removed). -/
def monitor_step (env : TickEnv) (entry : String × Position)
    (st : TraderState) : TraderState :=
  let symbol := entry.1
  let position := entry.2
  let current_price := env.current_price symbol
  if current_price ≤ 0 then st
  else
    let is_long := is_long_position position
    let sl_hit : Bool :=
      match position.stop_loss with
      | some sl =>
        if sl = 0 then false
        else if is_long then decide (current_price ≤ sl)
        else decide (sl ≤ current_price)
      | none => false
    if sl_hit then close_position env symbol current_price "STOP_LOSS" st
    else
      let tp_hit : Bool :=
        match position.take_profit with
        | some tp =>
          if tp = 0 then false
          else if is_long then decide (tp ≤ current_price)
          else decide (current_price ≤ tp)
        | none => false
      if tp_hit then close_position env symbol current_price "TAKE_PROFIT" st
      else if st.simulation_mode then
        let upnl := if is_long then (current_price - position.entry_price) * position.size
                    else (position.entry_price - current_price) * position.size
        { st with open_positions := st.open_positions.map fun p =>
            if p.1 = symbol then (p.1, { p.2 with unrealized_pnl := upnl }) else p }
      else st

/-- The loop of `_monitor_positions` over the snapshot
`list(self.open_positions.items())`. -/
def monitor_go (env : TickEnv) : List (String × Position) → TraderState → TraderState
  | [], st => st
  | entry :: rest, st => monitor_go env rest (monitor_step env entry st)

/-- The `HyperliquidTestnetTrader._monitor_positions`. -/
def monitor_positions (env : TickEnv) (st : TraderState) : TraderState :=
  monitor_go env st.open_positions st

/-- What `_place_order` does to the caller: returns normally, or raises
`TransientError` / `CriticalError` out of its own `except` clause. -/
inductive PlaceRaise where
  | nothing
  | transient
  | critical
deriving DecidableEq, Repr

/-- The `HyperliquidTestnetTrader._place_order`: price sanity check, limit price
offset in the favourable direction, tick-size and size rounding, the venue
order call, then — on success — position tracking and the open-trade record.
A raised venue error is re-raised as `CriticalError` when its message holds a
critical keyword (checked first), as `TransientError` on a transient keyword,
and is otherwise logged and swallowed (no re-raise, no backoff).  The
`save_position`/`save_trade` calls persist to the `StateManager` model and do
not change the trader fields modelled here. -/
def place_order (cfg : TraderConfig) (env : TickEnv) (signal : Signal)
    (size : ℚ) (st : TraderState) : TraderState × PlaceRaise :=
  let symbol := cfg.default_symbol
  let is_buy := signal.direction == 1
  let current_price := env.current_price symbol
  if current_price ≤ 0 then (st, .nothing)
  else
    let offset := cfg.limit_price_offset_percent
    let limit_price :=
      if is_buy then current_price * (1 - offset) else current_price * (1 + offset)
    let limit_price := round_to_tick_size symbol limit_price
    let size := roundToDigits size 5
    match env.order_result with
    | .raised msg =>
      if anyKeyword msg critical_keywords then (st, .critical)
      else if anyKeyword msg place_transient_keywords then (st, .transient)
      else (st, .nothing)
    | .failStatus => (st, .nothing)
    | .ok =>
      let position : Position :=
        { signal := some signal, size := size, entry_price := limit_price,
          stop_loss := some signal.stop_loss, take_profit := some signal.take_profit,
          unrealized_pnl := 0 }
      let trade : Trade :=
        { timestamp_day := env.today, symbol := symbol,
          direction := if is_buy then "LONG" else "SHORT",
          size := size, entry_price := limit_price, stop_loss := signal.stop_loss,
          confidence := signal.confidence, status := "OPEN",
          exit_price := none, pnl := none, close_reason := none, close_day := none }
      let ops :=
        if (lookupKey st.open_positions symbol).isSome then
          st.open_positions.map fun p => if p.1 = symbol then (p.1, position) else p
        else st.open_positions ++ [(symbol, position)]
      ({ st with open_positions := ops,
                 trade_history := st.trade_history ++ [trade] }, .nothing)

/-- How one call of `_trading_iteration` returns: normally, after the 5 s
transient pause, after the 10 s unknown-error pause, or through the
`CriticalError` handler that stops trading. -/
inductive IterOutcome where
  | completed
  | transientPause
  | criticalStop
  | unknownPause
deriving DecidableEq, Repr

/-- The part of `_trading_iteration` that runs after the breaker check and
position monitoring, on the monitored state `st2`: data fetch, signal
selection (the most recent signal only), the confidence / existing-position /
position-count gates, sizing, and order placement; the surrounding try/except
maps a raised `CriticalError` to breaker-trip + stop, `TransientError` to the
5 s pause, and categorizes anything else (here: a fetch failure) by the
transient vocabulary. -/
def iteration_after_monitor (cfg : TraderConfig) (env : TickEnv)
    (st2 : TraderState) : TraderState × IterOutcome :=
  match env.fetch_result with
    | .error msg =>
      if anyKeyword msg iteration_transient_keywords then (st2, .transientPause)
      else (st2, .unknownPause)
    | .ok _ =>
      match env.signals.getLast? with
      | none => (st2, .completed)
      | some latest_signal =>
        if latest_signal.confidence < cfg.min_confidence then (st2, .completed)
        else if (lookupKey st2.open_positions cfg.default_symbol).isSome then (st2, .completed)
        else if cfg.max_open_positions ≤ st2.open_positions.length then (st2, .completed)
        else
          let position_size :=
            calculate_position_size (get_portfolio_value env st2)
              latest_signal.entry_price
              latest_signal.stop_loss latest_signal.confidence
              env.current_atr env.baseline_atr
              (count_consecutive_wins st2.trade_history)
              (count_consecutive_losses st2.trade_history) cfg.risk_params
          if position_size = 0 then (st2, .completed)
          else
            let pr := place_order cfg env latest_signal position_size st2
            match pr.2 with
            | .critical =>
              ({ pr.1 with circuit_breaker_triggered := true, is_running := false },
               .criticalStop)
            | .transient => (pr.1, .transientPause)
            | .nothing => (pr.1, .completed)

/-- The `HyperliquidTestnetTrader._trading_iteration`: breaker check first
(returning immediately when it fails), then position monitoring, then the
signal/order part of the tick (`iteration_after_monitor`). -/
def trading_iteration (cfg : TraderConfig) (env : TickEnv)
    (st : TraderState) : TraderState × IterOutcome :=
  let r := check_circuit_breakers env st
  if !r.1 then (r.2, .completed)
  else iteration_after_monitor cfg env (monitor_positions env r.2)

/-- Concrete persisted state used by the state-store scenarios below. -/
def sampleState : TradingState :=
  { open_positions := [("BTC", .obj [("size", .num 1), ("entry_price", .num 50000),
                                     ("timestamp", .str "2025-01-01T00:00:00")])]
    trade_history := [.obj [("symbol", .str "BTC"), ("pnl", .num 100),
                            ("timestamp", .str "2025-01-01T00:00:00")]]
    starting_balance := 50000
    session_start := "2025-01-01T00:00:00"
    last_updated := "2025-01-02T00:00:00"
    metadata := [] }

/-- A second state, distinct from `sampleState`, that a timed-out save tries
to write. -/
def sampleState2 : TradingState :=
  { sampleState with starting_balance := 75000 }

/-- A file layout whose primary holds `sampleState`. -/
def sampleFiles : StateFiles :=
  { primary := .content sampleState.to_dict, backups := [] }

/-- C2 counterexample.  The claim says a lock-timeout failure "surfaces to
the caller as a retryable error rather than being silently absorbed", that a
save during a lock timeout "is not silently lost", and that a load during a
lock timeout "does not silently substitute an empty state".  In the code both
`_save_state` and `_load_or_create_state` catch `filelock.Timeout` and only
log it (the functions cannot raise): here a save attempted under a lock
timeout leaves every file unchanged (the new state is dropped), and a load
under a lock timeout returns the empty default state even though the primary
file parses to `sampleState` (balance 50000, one position, one trade). -/
theorem C2_counterexample :
    save_state 5 true sampleState2 sampleFiles = sampleFiles ∧
    load_or_create_state 5 true 10 sampleFiles = some (TradingState.empty, sampleFiles) ∧
    TradingState.empty.starting_balance = 0 ∧
    sampleState.starting_balance = 50000 ∧
    TradingState.empty.open_positions = [] ∧
    sampleState.open_positions.length = 1 :=
  ⟨rfl, rfl, rfl, rfl, rfl, rfl⟩

/-- C2 (amended): every load and save guards the state file with an exclusive
lock with a bounded (10 s) wait, but a failure to acquire the lock is caught
and logged rather than surfaced: a save attempted during a lock timeout is
silently dropped (all files unchanged, nothing raised), and a load during a
lock timeout silently yields the empty default state. -/
theorem C2_lock_timeout_silently_absorbed (backup_count : ℕ) (s : TradingState)
    (fs : StateFiles) (fuel : ℕ) (hfuel : 0 < fuel) :
    save_state backup_count true s fs = fs ∧
    load_or_create_state backup_count true fuel fs = some (TradingState.empty, fs) := by
  refine ⟨rfl, ?_⟩
  cases fuel with
  | zero => omega
  | succ n =>
    cases hp : fs.primary <;> simp [load_or_create_state, hp]

/-- C2 witness: the amended theorem applied to the concrete scenario. -/
theorem C2_witness :
    0 < 1 ∧
    (save_state 5 true sampleState2 sampleFiles = sampleFiles ∧
     load_or_create_state 5 true 1 sampleFiles = some (TradingState.empty, sampleFiles)) :=
  ⟨Nat.one_pos, C2_lock_timeout_silently_absorbed 5 sampleState2 sampleFiles 1 Nat.one_pos⟩

/-- C3: saving any `TradingState` through the store and loading it back from
a fresh store instance over the same files yields the very same state — in
particular an equal `open_positions` map and `trade_history` list, including
the (ISO-string) timestamp fields that `_serialize_position` /
`_serialize_trade` wrote into them. -/
theorem C3_state_round_trip (s : TradingState) (fs : StateFiles)
    (backup_count fuel : ℕ) (hfuel : 0 < fuel) :
    load_or_create_state backup_count false fuel (save_state backup_count false s fs) =
      some (s, save_state backup_count false s fs) ∧
    (load_or_create_state backup_count false fuel
        (save_state backup_count false s fs)).map (fun r => r.1.open_positions) =
      some s.open_positions ∧
    (load_or_create_state backup_count false fuel
        (save_state backup_count false s fs)).map (fun r => r.1.trade_history) =
      some s.trade_history := by
  cases fuel with
  | zero => omega
  | succ n =>
    have h : load_or_create_state backup_count false (n + 1)
        (save_state backup_count false s fs) =
        some (s, save_state backup_count false s fs) := by
      simp [save_state, load_or_create_state, from_dict_to_dict]
    exact ⟨h, by rw [h]; rfl, by rw [h]; rfl⟩

/-- C3 witness: round trip of the concrete `sampleState` (whose position and
trade dicts carry ISO timestamp strings). -/
theorem C3_witness :
    0 < 1 ∧
    load_or_create_state 5 false 1 (save_state 5 false sampleState sampleFiles) =
      some (sampleState, save_state 5 false sampleState sampleFiles) :=
  ⟨Nat.one_pos, (C3_state_round_trip sampleState sampleFiles 5 1 Nat.one_pos).1⟩

/-- The first backup in the chain (most recent first) whose `json.load`
succeeds — the one `_try_recover_from_backup` restores. -/
def first_parsing_backup (backups : List FileContent) : Option JsonVal :=
  backups.findSome? fun fc => match fc with
    | .content j => some j
    | _ => none

theorem try_recover_eq (fs : StateFiles) :
    try_recover_from_backup false fs =
      (first_parsing_backup fs.backups).map
        (fun j => { fs with primary := .content j }) := by
  unfold try_recover_from_backup first_parsing_backup
  cases fs.backups.findSome? fun fc => match fc with
    | .content j => some j
    | _ => none <;> simp

/-- C4 (amended): when the primary state file is corrupt, loading restores
and yields the content of the most recent backup that parses as JSON —
provided that content also decodes as a `TradingState`; a backup that parses
as JSON but does not decode makes the load recurse without bound (the
counterexample below) instead of moving on to a later valid backup.  When
the primary is corrupt and no backup parses, loading yields the empty
default state without raising. -/
theorem C4_backup_recovery (backup_count fuel : ℕ) (fs : StateFiles)
    (hp : fs.primary = .corrupt) :
    (∀ j s, first_parsing_backup fs.backups = some j →
      TradingState.from_dict j = some s → 2 ≤ fuel →
      load_or_create_state backup_count false fuel fs =
        some (s, { fs with primary := .content j })) ∧
    (first_parsing_backup fs.backups = none → 1 ≤ fuel →
      load_or_create_state backup_count false fuel fs =
        some (TradingState.empty, fs)) := by
  constructor
  · intro j s hfind hdec hfuel
    match fuel, hfuel with
    | n + 2, _ =>
      have hrec : try_recover_from_backup false fs =
          some { fs with primary := .content j } := by
        rw [try_recover_eq, hfind]; rfl
      simp [load_or_create_state, hp, hrec, hdec]
  · intro hfind hfuel
    match fuel, hfuel with
    | n + 1, _ =>
      have hrec : try_recover_from_backup false fs = none := by
        rw [try_recover_eq, hfind]; rfl
      simp [load_or_create_state, hp, hrec]

/-- Files with a corrupt primary whose first backup is valid JSON that is not
a valid state dict (`[1]` — `cls(**data)` raises on it), while the second
backup holds a perfectly good state. -/
def stuckFiles : StateFiles :=
  { primary := .corrupt
    backups := [.content (.arr [.num 1]), .content sampleState.to_dict] }

/-- The `stuckFiles` after `_try_recover_from_backup` restored the first
JSON-parseable backup as the new primary. -/
def stuckFiles2 : StateFiles :=
  { stuckFiles with primary := .content (.arr [.num 1]) }

theorem load_stuckFiles2 (backup_count n : ℕ) :
    load_or_create_state backup_count false n stuckFiles2 = none := by
  induction n with
  | zero => rfl
  | succ m ih =>
    have hrec : try_recover_from_backup false stuckFiles2 = some stuckFiles2 := rfl
    have : load_or_create_state backup_count false (m + 1) stuckFiles2 =
        load_or_create_state backup_count false m stuckFiles2 := by
      simp [load_or_create_state, hrec]; rfl
    rw [this, ih]

/-- C4 counterexample.  The claim says that when the primary is corrupt and
at least one backup parses, loading "yields exactly the content of the most
recent valid backup".  Here the primary is corrupt, the first backup parses
as JSON but is not a valid state dict, and the second backup holds the valid
`sampleState`; `_try_recover_from_backup` restores the first parseable
backup without checking its shape, `TradingState.from_dict` then fails on
it, recovery restores the same backup again, and the load recurses forever
(every recursion budget is exhausted — in Python, `RecursionError`).  It
never yields `sampleState`, and it does not return the default state
either. -/
theorem C4_counterexample :
    TradingState.from_dict (.arr [.num 1]) = none ∧
    TradingState.from_dict sampleState.to_dict = some sampleState ∧
    ∀ fuel, load_or_create_state 5 false fuel stuckFiles = none := by
  refine ⟨rfl, from_dict_to_dict sampleState, ?_⟩
  intro fuel
  cases fuel with
  | zero => rfl
  | succ n =>
    have : load_or_create_state 5 false (n + 1) stuckFiles =
        load_or_create_state 5 false n stuckFiles2 := rfl
    rw [this, load_stuckFiles2]

/-- C4 witness: the amended theorem applied to two concrete layouts — a
corrupt primary with a decodable most-recent backup (recovered exactly), and
a corrupt primary with no parseable backup (empty default, no failure). -/
theorem C4_witness :
    load_or_create_state 5 false 2
        { primary := .corrupt, backups := [.absent, .content sampleState.to_dict] } =
      some (sampleState,
        { primary := .content sampleState.to_dict,
          backups := [.absent, .content sampleState.to_dict] }) ∧
    load_or_create_state 5 false 1
        { primary := .corrupt, backups := [.absent, .corrupt] } =
      some (TradingState.empty, { primary := .corrupt, backups := [.absent, .corrupt] }) :=
  ⟨(C4_backup_recovery 5 2
      { primary := .corrupt, backups := [.absent, .content sampleState.to_dict] } rfl).1
      sampleState.to_dict sampleState rfl (from_dict_to_dict sampleState) (by omega),
   (C4_backup_recovery 5 1
      { primary := .corrupt, backups := [.absent, .corrupt] } rfl).2 rfl (by omega)⟩

/-- C6: for every input, `calculate_position_size` returns exactly 0 whenever
`confidence_score < params.min_confidence`, is never negative, and its
notional (`size × entry_price`) never exceeds
`portfolio_value × max_position_percent` (exactly, over ℚ — the claim's
floating tolerance is not even needed), under the natural domain of the
inputs (non-negative portfolio and risk percentages, positive entry price,
non-negative ATRs). -/
theorem C6_position_size_bounds (portfolio_value entry_price stop_loss_price
    confidence_score current_atr baseline_atr : ℚ)
    (consecutive_wins consecutive_losses : ℕ) (params : RiskParameters)
    (hpv : 0 ≤ portfolio_value) (hep : 0 < entry_price)
    (hbr : 0 ≤ params.base_risk_percent) (hmp : 0 ≤ params.max_position_percent)
    (hca : 0 ≤ current_atr) (hba : 0 ≤ baseline_atr) :
    (confidence_score < params.min_confidence →
      calculate_position_size portfolio_value entry_price stop_loss_price
        confidence_score current_atr baseline_atr consecutive_wins
        consecutive_losses params = 0) ∧
    0 ≤ calculate_position_size portfolio_value entry_price stop_loss_price
        confidence_score current_atr baseline_atr consecutive_wins
        consecutive_losses params ∧
    calculate_position_size portfolio_value entry_price stop_loss_price
        confidence_score current_atr baseline_atr consecutive_wins
        consecutive_losses params * entry_price ≤
      portfolio_value * params.max_position_percent := by
  have key : calculate_position_size portfolio_value entry_price stop_loss_price
      confidence_score current_atr baseline_atr consecutive_wins
      consecutive_losses params =
      if confidence_score < params.min_confidence then 0
      else if |entry_price - stop_loss_price| = 0 then 0
      else
        min (portfolio_value * params.base_risk_percent *
              (if 0 < baseline_atr ∧ baseline_atr < current_atr then
                baseline_atr / current_atr else 1) *
              (1 / (1 + (consecutive_losses : ℚ))) / |entry_price - stop_loss_price|)
          (portfolio_value * params.max_position_percent / entry_price) := rfl
  rw [key]
  set v : ℚ := if 0 < baseline_atr ∧ baseline_atr < current_atr then
      baseline_atr / current_atr else 1 with hv
  have hvol : 0 ≤ v := by
    rw [hv]; split_ifs with h
    · exact div_nonneg hba hca
    · norm_num
  have hstreak : 0 ≤ (1 : ℚ) / (1 + (consecutive_losses : ℚ)) := by positivity
  have hnotional : 0 ≤ portfolio_value * params.max_position_percent :=
    mul_nonneg hpv hmp
  set R : ℚ := portfolio_value * params.base_risk_percent * v *
      (1 / (1 + (consecutive_losses : ℚ))) / |entry_price - stop_loss_price| with hr
  set C : ℚ := portfolio_value * params.max_position_percent / entry_price with hc
  split_ifs with hconf hdist
  · exact ⟨fun _ => rfl, le_refl 0, by simpa using hnotional⟩
  · exact ⟨fun h => absurd h hconf, le_refl 0, by simpa using hnotional⟩
  · refine ⟨fun h => absurd h hconf, ?_, ?_⟩
    · refine le_min ?_ ?_
      · rw [hr]
        exact div_nonneg
          (mul_nonneg (mul_nonneg (mul_nonneg hpv hbr) hvol) hstreak)
          (abs_nonneg _)
      · rw [hc]; exact div_nonneg hnotional hep.le
    · calc min R C * entry_price ≤ C * entry_price :=
            mul_le_mul_of_nonneg_right (min_le_right _ _) hep.le
        _ = portfolio_value * params.max_position_percent := by
            rw [hc]; exact div_mul_cancel₀ _ hep.ne'

/-- C6 witness: the theorem instantiated at concrete inputs (confidence 40
below the 50 floor, entry 50000, stop 49000, 2 percent base risk, 5 percent
position cap). -/
theorem C6_witness :
    (0:ℚ) ≤ 100000 ∧ (0:ℚ) < 50000 ∧
    ((40:ℚ) < 50 →
      calculate_position_size 100000 50000 49000 40 1 1 0 0 ⟨2/100, 5/100, 50⟩ = 0) ∧
    0 ≤ calculate_position_size 100000 50000 49000 40 1 1 0 0 ⟨2/100, 5/100, 50⟩ ∧
    calculate_position_size 100000 50000 49000 40 1 1 0 0 ⟨2/100, 5/100, 50⟩ * 50000 ≤
      100000 * (5/100 : ℚ) := by
  refine ⟨by norm_num, by norm_num, ?_⟩
  exact C6_position_size_bounds 100000 50000 49000 40 1 1 0 0 ⟨2/100, 5/100, 50⟩
    (by norm_num) (by norm_num) (by norm_num) (by norm_num) (by norm_num) (by norm_num)

/-- C9: the spec-modelled `ConfidenceFactors.calculate_score` lies in
[0, 100] for every combination of factor flags, and the setup detector's
`_calculate_setup_confidence` lies in [0, 100] for every market-data input
(any factor total, any HTF-alignment / volume-confirmation outcome, and the
`except` path returning 0). -/
theorem C9_confidence_bounds :
    (∀ f : ConfidenceFactors,
      0 ≤ f.calculate_score ∧ f.calculate_score ≤ 100) ∧
    (∀ (total_score : ℚ) (htf_bias_matches volume_confirmed errored : Bool),
      0 ≤ calculate_setup_confidence total_score htf_bias_matches
            volume_confirmed errored ∧
      calculate_setup_confidence total_score htf_bias_matches
            volume_confirmed errored ≤ 100) := by
  constructor
  · intro f
    unfold ConfidenceFactors.calculate_score
    exact ⟨le_min (by norm_num) (le_max_left _ _), min_le_left _ _⟩
  · intro total_score htf volume errored
    unfold calculate_setup_confidence
    cases errored with
    | true => simp
    | false =>
      simp only [Bool.false_eq_true, if_false]
      exact ⟨le_min (by norm_num) (le_max_left _ _), min_le_left _ _⟩

theorem candles_to_dataframe_columns (candles : List HLCandle) :
    (candles_to_dataframe candles).columns = ohlcvColumns := by
  cases candles <;> rfl

theorem candles_to_dataframe_sorted (candles : List HLCandle) :
    List.Sorted rowLE (candles_to_dataframe candles).rows := by
  cases candles with
  | nil => simp [candles_to_dataframe, empty_dataframe]
  | cons c t => exact List.sorted_insertionSort rowLE _

/-- C8 (amended): `fetch_ohlcv` raises `ValueError` for an invalid timeframe
and `ConnectionError` for a transport failure (distinguishable), and every
frame it returns is sorted ascending by time with exactly the columns
open/high/low/close/volume over a time index; however the frame is NOT
deduplicated (duplicate timestamps coming back from the venue are kept — the
counterexample below), and an invalid symbol is never detected locally: the
symbol is passed to the venue unchecked, an empty response yields an empty
frame without error, and a venue-side symbol error surfaces only as the same
`ConnectionError` as a transport failure. -/
theorem C8_fetch_ohlcv (timeframe : String) (limit : Option ℕ)
    (api : Except String (List HLCandle)) :
    (TIMEFRAME_MAP.contains timeframe = false →
      fetch_ohlcv timeframe limit api =
        .valueError ("Invalid timeframe: " ++ timeframe)) ∧
    (TIMEFRAME_MAP.contains timeframe = true → ∀ e, api = .error e →
      fetch_ohlcv timeframe limit api =
        .connectionError ("Hyperliquid API error: " ++ e)) ∧
    (TIMEFRAME_MAP.contains timeframe = true → ∀ cs, api = .ok cs →
      ∃ df, fetch_ohlcv timeframe limit api = .ok df ∧
        df.columns = ohlcvColumns ∧ List.Sorted rowLE df.rows) := by
  refine ⟨?_, ?_, ?_⟩
  · intro h
    have hmem : timeframe ∉ TIMEFRAME_MAP := by simpa using h
    simp [fetch_ohlcv, hmem]
  · intro h e he
    subst he
    have hmem : timeframe ∈ TIMEFRAME_MAP := by simpa using h
    simp [fetch_ohlcv, hmem]
  · intro h cs hcs
    subst hcs
    have hmem : timeframe ∈ TIMEFRAME_MAP := by simpa using h
    by_cases hnil : cs = []
    · refine ⟨empty_dataframe, ?_, rfl, ?_⟩
      · simp [fetch_ohlcv, hmem, hnil]
      · simp [empty_dataframe]
    · have hred : fetch_ohlcv timeframe limit (.ok cs) =
          .ok (let df := candles_to_dataframe cs
            let lim := match limit with
              | none => 1000
              | some l => if l > MAX_CANDLES then MAX_CANDLES else l
            if df.rows.length > lim then
              { df with rows := df.rows.drop (df.rows.length - lim) }
            else df) := by
        simp [fetch_ohlcv, hmem, hnil]
      refine ⟨_, hred, ?_, ?_⟩
      · dsimp only
        split_ifs
        · exact candles_to_dataframe_columns cs
        · exact candles_to_dataframe_columns cs
      · dsimp only
        split_ifs
        · exact (candles_to_dataframe_sorted cs).sublist
            (List.drop_sublist _ _)
        · exact candles_to_dataframe_sorted cs

/-- Two venue candles sharing the same timestamp (1 000 000 ms). -/
def dupCandles : List HLCandle :=
  [{ t := 1000000, o := 1, high := 2, low := 1, c := 2, v := 5 },
   { t := 1000000, o := 2, high := 3, low := 2, c := 3, v := 6 }]

/-- C8 counterexample.  The claim says every successful `fetch_ohlcv` result
is deduplicated.  With a venue response holding two candles at the same
timestamp, the returned frame keeps both rows (duplicate time index): no
deduplication is performed anywhere in `fetch_ohlcv` /
`_candles_to_dataframe`. -/
theorem C8_counterexample :
    fetch_ohlcv "1h" (some 100) (.ok dupCandles) =
      .ok { columns := ohlcvColumns,
            rows := [{ timestamp := 1000000, open_ := 1, high := 2, low := 1,
                       close := 2, volume := 5 },
                     { timestamp := 1000000, open_ := 2, high := 3, low := 2,
                       close := 3, volume := 6 }] } ∧
    ¬ ([1000000, 1000000] : List ℕ).Nodup := by
  constructor
  · rfl
  · decide

/-- C8 witness: the amended theorem at concrete inputs — invalid timeframe
"3h", a transport failure on "1h", and a successful "1h" fetch. -/
theorem C8_witness :
    (fetch_ohlcv "3h" none (.ok []) = .valueError ("Invalid timeframe: " ++ "3h")) ∧
    (fetch_ohlcv "1h" none (.error "socket closed") =
      .connectionError ("Hyperliquid API error: " ++ "socket closed")) ∧
    (∃ df, fetch_ohlcv "1h" (some 100) (.ok dupCandles) = .ok df ∧
      df.columns = ohlcvColumns ∧ List.Sorted rowLE df.rows) :=
  ⟨(C8_fetch_ohlcv "3h" none (.ok [])).1 rfl,
   (C8_fetch_ohlcv "1h" none (.error "socket closed")).2.1 rfl "socket closed" rfl,
   (C8_fetch_ohlcv "1h" (some 100) (.ok dupCandles)).2.2 rfl dupCandles rfl⟩

/-- C10: a position whose record carries no direction information
(`signal is None`, e.g. adopted from the venue by startup reconciliation) is
monitored as if it were long: its stop-loss triggers when the current price
is ≤ the stop, its take-profit when the current price is ≥ the target, and
the stop-loss check runs first, so when both conditions hold the close
reason is STOP_LOSS (stated for positive prices and levels, the domain the
monitor operates on — a non-positive fetched price means "price unavailable"
and skips the check, and a zero level is Python-falsy). -/
theorem C10_directionless_position_monitored_long (env : TickEnv)
    (st : TraderState) (symbol : String) (position : Position) (sl tp : ℚ)
    (hsig : position.signal = none)
    (hsl : position.stop_loss = some sl) (hsl0 : 0 < sl)
    (htp : position.take_profit = some tp) (htp0 : 0 < tp)
    (hprice : 0 < env.current_price symbol) :
    is_long_position position = true ∧
    (env.current_price symbol ≤ sl →
      monitor_step env (symbol, position) st =
        close_position env symbol (env.current_price symbol) "STOP_LOSS" st) ∧
    (sl < env.current_price symbol → tp ≤ env.current_price symbol →
      monitor_step env (symbol, position) st =
        close_position env symbol (env.current_price symbol) "TAKE_PROFIT" st) := by
  have hlong : is_long_position position = true := by
    simp [is_long_position, hsig]
  refine ⟨hlong, ?_, ?_⟩
  · intro hhit
    simp [monitor_step, hlong, hsl, hsl0.ne', hhit, not_le.mpr hprice]
  · intro hmiss hhit
    simp [monitor_step, hlong, hsl, hsl0.ne', htp, htp0.ne',
      not_le.mpr hmiss, hhit, not_le.mpr hprice]

/-- A synced-from-exchange position (no signal, no stop, no target) with a
stop and target later attached, used to instantiate C10. -/
def adoptedPosition : Position :=
  { signal := none, size := 1, entry_price := 50, stop_loss := some (99/2),
    take_profit := some 60, unrealized_pnl := 0 }

/-- Minimal environment for the monitoring scenarios: price 49 for every
symbol. -/
def monitorEnv : TickEnv :=
  { today := 7, portfolio_value := 10000, current_price := fun _ => 49,
    fetch_result := .ok (), signals := [], current_atr := 1, baseline_atr := 1,
    order_result := .ok }

/-- Minimal trader state holding `adoptedPosition` on BTC. -/
def monitorState : TraderState :=
  { open_positions := [("BTC", adoptedPosition)]
    trade_history := []
    starting_balance := 10000
    max_daily_drawdown := 1/5
    max_daily_trades := 50
    circuit_breaker_triggered := false
    circuit_breaker_date := 7
    is_running := true
    simulation_mode := true }

/-- C10 witness: the theorem at the concrete adopted position (price 49 ≤
stop 49.5, so the stop-loss close fires). -/
theorem C10_witness :
    adoptedPosition.signal = none ∧ (0:ℚ) < 99/2 ∧ (0:ℚ) < 60 ∧
    (0:ℚ) < monitorEnv.current_price "BTC" ∧
    (is_long_position adoptedPosition = true ∧
     (monitorEnv.current_price "BTC" ≤ 99/2 →
       monitor_step monitorEnv ("BTC", adoptedPosition) monitorState =
         close_position monitorEnv "BTC" (monitorEnv.current_price "BTC")
           "STOP_LOSS" monitorState) ∧
     ((99:ℚ)/2 < monitorEnv.current_price "BTC" →
       (60:ℚ) ≤ monitorEnv.current_price "BTC" →
       monitor_step monitorEnv ("BTC", adoptedPosition) monitorState =
         close_position monitorEnv "BTC" (monitorEnv.current_price "BTC")
           "TAKE_PROFIT" monitorState)) :=
  ⟨rfl, by norm_num, by norm_num, by norm_num [monitorEnv],
   C10_directionless_position_monitored_long monitorEnv monitorState "BTC"
     adoptedPosition (99/2) 60 rfl rfl (by norm_num) rfl (by norm_num)
     (by norm_num [monitorEnv])⟩

theorem check_circuit_breakers_preserves (env : TickEnv) (st : TraderState) :
    (check_circuit_breakers env st).2.open_positions = st.open_positions ∧
    (check_circuit_breakers env st).2.trade_history = st.trade_history := by
  unfold check_circuit_breakers
  dsimp only
  split_ifs <;> simp

/-- C1 (amended): in a tick where a circuit breaker is tripped (or was
already tripped earlier the same day), `_trading_iteration` returns right
after the breaker check: no new position is opened, and position monitoring
is also skipped for that tick — the breaker check precedes
`_monitor_positions`, so open positions and the trade history are left
exactly as they were (open risk is NOT managed during a tripped tick). -/
theorem C1_tripped_breaker_skips_whole_tick (cfg : TraderConfig)
    (env : TickEnv) (st : TraderState)
    (h : (check_circuit_breakers env st).1 = false) :
    trading_iteration cfg env st = ((check_circuit_breakers env st).2, .completed) ∧
    (trading_iteration cfg env st).1.open_positions = st.open_positions ∧
    (trading_iteration cfg env st).1.trade_history = st.trade_history := by
  have hit : trading_iteration cfg env st =
      ((check_circuit_breakers env st).2, .completed) := by
    unfold trading_iteration
    dsimp only
    rw [h]
    simp
  refine ⟨hit, ?_, ?_⟩
  · rw [hit]
    exact (check_circuit_breakers_preserves env st).1
  · rw [hit]
    exact (check_circuit_breakers_preserves env st).2

/-- The position whose stop-loss is crossed while the breaker trips. -/
def drawdownPosition : Position :=
  { signal := none, size := 1, entry_price := 60000, stop_loss := some 50000,
    take_profit := some 70000, unrealized_pnl := 0 }

/-- The open trade backing `drawdownPosition`. -/
def drawdownTrade : Trade :=
  { timestamp_day := 7, symbol := "BTC", direction := "LONG", size := 1,
    entry_price := 60000, stop_loss := 50000, confidence := 80,
    status := "OPEN", exit_price := none, pnl := none, close_reason := none,
    close_day := none }

/-- The trader configuration used by the concrete tick scenarios. -/
def testConfig : TraderConfig :=
  { default_symbol := "BTC", min_confidence := 50, max_open_positions := 3,
    limit_price_offset_percent := 1/1000,
    risk_params := { base_risk_percent := 2/100, max_position_percent := 5/100,
                     min_confidence := 50 } }

/-- The spec's circuit-breaker scenario: starting balance 100 000,
`max_daily_drawdown = 0.20`, one open BTC position.  Not in simulation mode,
so `_get_portfolio_value` reads the venue's reported account value (in
simulation mode the balance would instead be computed from this state
itself and could not be 30 % down). -/
def drawdownState : TraderState :=
  { open_positions := [("BTC", drawdownPosition)]
    trade_history := [drawdownTrade]
    starting_balance := 100000
    max_daily_drawdown := 1/5
    max_daily_trades := 50
    circuit_breaker_triggered := false
    circuit_breaker_date := 7
    is_running := true
    simulation_mode := false }

/-- The tick environment of the scenario: the venue reports an account value
of 70 000 (30 % down) and a BTC price of 49 000, below the position's
50 000 stop. -/
def drawdownEnv : TickEnv :=
  { today := 7, portfolio_value := 70000, current_price := fun _ => 49000,
    fetch_result := .ok (), signals := [], current_atr := 1, baseline_atr := 1,
    order_result := .ok }

theorem drawdown_breaker_trips :
    check_circuit_breakers drawdownEnv drawdownState =
      (false, { drawdownState with circuit_breaker_triggered := true,
                                   is_running := false }) := by
  unfold check_circuit_breakers
  norm_num [drawdownEnv, drawdownState, count_today_trades, drawdownTrade,
    get_portfolio_value]

/-- C1 counterexample.  In the spec's own scenario (the venue reports a
balance of 70 000 against a starting 100 000, 30 % > 20 % drawdown; the
trader is live, not in simulation mode) with an open BTC position whose
stop-loss (50 000) is crossed by the current price (49 000): position
monitoring, had it run, would have closed the position (first conjunct), but
the trading iteration trips the drawdown breaker and returns before
`_monitor_positions`, leaving the position open with the stop crossed
(second conjunct) — the claim that "position monitoring still executes in
that same tick" fails on the code. -/
theorem C1_counterexample :
    lookupKey (monitor_positions drawdownEnv drawdownState).open_positions "BTC" =
      none ∧
    lookupKey (trading_iteration testConfig drawdownEnv drawdownState).1.open_positions
      "BTC" = some drawdownPosition ∧
    (trading_iteration testConfig drawdownEnv drawdownState).1.circuit_breaker_triggered =
      true ∧
    (trading_iteration testConfig drawdownEnv drawdownState).1.is_running = false := by
  have hit : trading_iteration testConfig drawdownEnv drawdownState =
      ({ drawdownState with circuit_breaker_triggered := true, is_running := false },
       .completed) := by
    unfold trading_iteration
    dsimp only
    rw [drawdown_breaker_trips]
    simp
  rw [hit]
  exact ⟨rfl, rfl, rfl, rfl⟩

/-- C1 witness: the amended theorem at the concrete drawdown scenario. -/
theorem C1_witness :
    (check_circuit_breakers drawdownEnv drawdownState).1 = false ∧
    (trading_iteration testConfig drawdownEnv drawdownState =
      ((check_circuit_breakers drawdownEnv drawdownState).2, .completed) ∧
     (trading_iteration testConfig drawdownEnv drawdownState).1.open_positions =
       drawdownState.open_positions ∧
     (trading_iteration testConfig drawdownEnv drawdownState).1.trade_history =
       drawdownState.trade_history) := by
  have h : (check_circuit_breakers drawdownEnv drawdownState).1 = false := by
    rw [drawdown_breaker_trips]
  exact ⟨h, C1_tripped_breaker_skips_whole_tick testConfig drawdownEnv drawdownState h⟩

theorem lookupKey_eq_none_iff {α : Type} (l : List (String × α)) (k : String) :
    lookupKey l k = none ↔ k ∉ l.map Prod.fst := by
  induction l with
  | nil => simp [lookupKey]
  | cons p t ih =>
    obtain ⟨k', v⟩ := p
    by_cases hk : k' = k
    · subst hk
      simp [lookupKey]
    · simp [lookupKey, hk, ih, (Ne.symm hk : k ≠ k')]


theorem map_fst_pnl_update (s : String) (c : ℚ) (l : List (String × Position)) :
    (l.map fun p =>
      if p.1 = s then (p.1, { p.2 with unrealized_pnl := c }) else p).map Prod.fst =
      l.map Prod.fst := by
  induction l with
  | nil => rfl
  | cons q t ih =>
    by_cases hq : q.1 = s <;> simp [hq, ih]

theorem close_position_keys (env : TickEnv) (symbol : String) (price : ℚ)
    (reason : String) (st : TraderState) :
    List.Sublist
      ((close_position env symbol price reason st).open_positions.map Prod.fst)
      (st.open_positions.map Prod.fst) := by
  unfold close_position
  cases h : lookupKey st.open_positions symbol with
  | none => exact List.Sublist.refl _
  | some pos =>
    dsimp only
    exact (List.filter_sublist _).map _

theorem monitor_step_keys (env : TickEnv) (entry : String × Position)
    (st : TraderState) :
    List.Sublist ((monitor_step env entry st).open_positions.map Prod.fst)
      (st.open_positions.map Prod.fst) := by
  unfold monitor_step
  dsimp only
  split_ifs <;>
    first
      | exact List.Sublist.refl _
      | exact close_position_keys _ _ _ _ _
      | (dsimp only; rw [map_fst_pnl_update])

theorem monitor_go_keys (env : TickEnv) (l : List (String × Position))
    (st : TraderState) :
    List.Sublist ((monitor_go env l st).open_positions.map Prod.fst)
      (st.open_positions.map Prod.fst) := by
  induction l generalizing st with
  | nil => exact List.Sublist.refl _
  | cons e t ih =>
    exact (ih (monitor_step env e st)).trans (monitor_step_keys env e st)

theorem monitor_positions_keys (env : TickEnv) (st : TraderState) :
    List.Sublist ((monitor_positions env st).open_positions.map Prod.fst)
      (st.open_positions.map Prod.fst) :=
  monitor_go_keys env st.open_positions st

theorem trading_iteration_breaker_ok (cfg : TraderConfig) (env : TickEnv)
    (st st1 : TraderState) (hcb : check_circuit_breakers env st = (true, st1)) :
    trading_iteration cfg env st =
      iteration_after_monitor cfg env (monitor_positions env st1) := by
  unfold trading_iteration
  dsimp only
  rw [hcb]
  simp

theorem iteration_after_monitor_positions (cfg : TraderConfig) (env : TickEnv)
    (st2 : TraderState) :
    (iteration_after_monitor cfg env st2).1.open_positions = st2.open_positions ∨
    (lookupKey st2.open_positions cfg.default_symbol = none ∧
     st2.open_positions.length < cfg.max_open_positions ∧
     ∃ p : Position,
       (iteration_after_monitor cfg env st2).1.open_positions =
         st2.open_positions ++ [(cfg.default_symbol, p)]) := by
  unfold iteration_after_monitor
  cases hf : env.fetch_result with
  | error msg =>
    dsimp only
    split_ifs with h
    · exact Or.inl rfl
    · exact Or.inl rfl
  | ok u =>
    dsimp only
    cases hs : env.signals.getLast? with
    | none => exact Or.inl rfl
    | some sig =>
      dsimp only
      split_ifs with h1 h2 h3 h4
      · exact Or.inl rfl
      · exact Or.inl rfl
      · exact Or.inl rfl
      · exact Or.inl rfl
      · have hlook : lookupKey st2.open_positions cfg.default_symbol = none := by
          cases hl : lookupKey st2.open_positions cfg.default_symbol with
          | none => rfl
          | some p => rw [hl] at h2; simp at h2
        have hlt : st2.open_positions.length < cfg.max_open_positions :=
          not_le.mp h3
        unfold place_order
        dsimp only
        by_cases hp : env.current_price cfg.default_symbol ≤ 0
        · rw [if_pos hp]
          exact Or.inl rfl
        · rw [if_neg hp]
          cases ho : env.order_result with
          | raised msg =>
            dsimp only
            split_ifs with hcrit htrans
            · exact Or.inl rfl
            · exact Or.inl rfl
            · exact Or.inl rfl
          | failStatus => exact Or.inl rfl
          | ok =>
            refine Or.inr ⟨hlook, hlt, ?_⟩
            rw [hlook]
            exact ⟨_, rfl⟩

/-- C5: under a passing breaker check, a qualifying latest signal opens no
new position when a position already exists for the symbol or when the
post-monitoring open-position count has reached `max_open_positions`
(conjuncts 1–2: the tick leaves the open-position map exactly as monitoring
left it); consequently the open-position dict keys stay duplicate-free (at
most one position per symbol, conjunct 3) and a tick never grows the map
beyond `max(previous count, max_open_positions)` — with
`max_open_positions = 3` and 3 symbols open, no 4th position is ever created
(conjunct 4). -/
theorem C5_position_limits (cfg : TraderConfig) (env : TickEnv)
    (st st1 : TraderState)
    (hcb : check_circuit_breakers env st = (true, st1))
    (hnd : (st.open_positions.map Prod.fst).Nodup) :
    ((lookupKey (monitor_positions env st1).open_positions cfg.default_symbol).isSome →
      (trading_iteration cfg env st).1.open_positions =
        (monitor_positions env st1).open_positions) ∧
    (cfg.max_open_positions ≤ (monitor_positions env st1).open_positions.length →
      (trading_iteration cfg env st).1.open_positions =
        (monitor_positions env st1).open_positions) ∧
    ((trading_iteration cfg env st).1.open_positions.map Prod.fst).Nodup ∧
    (trading_iteration cfg env st).1.open_positions.length ≤
      max st.open_positions.length cfg.max_open_positions := by
  have hpos1 : st1.open_positions = st.open_positions := by
    have h := (check_circuit_breakers_preserves env st).1
    rw [hcb] at h
    exact h
  have hred := trading_iteration_breaker_ok cfg env st st1 hcb
  set st2 := monitor_positions env st1 with hst2
  have hkeys2 : List.Sublist (st2.open_positions.map Prod.fst)
      (st.open_positions.map Prod.fst) := by
    rw [← hpos1]
    exact monitor_positions_keys env st1
  have hnd2 : (st2.open_positions.map Prod.fst).Nodup := hnd.sublist hkeys2
  have hlen2 : st2.open_positions.length ≤ st.open_positions.length := by
    have h := hkeys2.length_le
    simpa using h
  rcases iteration_after_monitor_positions cfg env st2 with hcase | ⟨hl, hlt, p, hp⟩
  · rw [hred]
    refine ⟨fun _ => hcase, fun _ => hcase, ?_, ?_⟩
    · rw [hcase]
      exact hnd2
    · rw [hcase]
      exact le_trans hlen2 (le_max_left _ _)
  · rw [hred]
    refine ⟨?_, ?_, ?_, ?_⟩
    · intro hs
      rw [hl] at hs
      simp at hs
    · intro hs
      exact absurd hs (not_le.mpr hlt)
    · rw [hp]
      have hnotin : cfg.default_symbol ∉ st2.open_positions.map Prod.fst :=
        (lookupKey_eq_none_iff _ _).mp hl
      simp [List.nodup_append, hnd2, hnotin]
    · rw [hp]
      have h1 : (st2.open_positions ++ [(cfg.default_symbol, p)]).length =
          st2.open_positions.length + 1 := by simp
      rw [h1]
      exact le_trans hlt (le_max_right _ _)

/-- A direction-less flat position with no stop or target (monitoring leaves
it untouched at any positive price). -/
def flatPosition : Position :=
  { signal := none, size := 1, entry_price := 10, stop_loss := none,
    take_profit := none, unrealized_pnl := 0 }

/-- Three open positions on three symbols: the `max_open_positions = 3` cap
is already reached. -/
def fullState : TraderState :=
  { open_positions := [("ETH", flatPosition), ("SOL", flatPosition),
                       ("AVAX", flatPosition)]
    trade_history := []
    starting_balance := 100000
    max_daily_drawdown := 1/5
    max_daily_trades := 50
    circuit_breaker_triggered := false
    circuit_breaker_date := 7
    is_running := true
    simulation_mode := false }

/-- A qualifying long signal (confidence 80 over the 50 floor). -/
def qualifyingSignal : Signal :=
  { direction := 1, entry_price := 50000, stop_loss := 49000,
    take_profit := 53000, confidence := 80 }

/-- A healthy tick environment delivering `qualifyingSignal` on BTC, with the
venue order call's outcome as a parameter. -/
def orderEnv (o : OrderOutcome) : TickEnv :=
  { today := 7, portfolio_value := 100000, current_price := fun _ => 50000,
    fetch_result := .ok (), signals := [qualifyingSignal], current_atr := 1,
    baseline_atr := 1, order_result := o }

theorem fullState_breaker_ok (o : OrderOutcome) :
    check_circuit_breakers (orderEnv o) fullState = (true, fullState) := by
  unfold check_circuit_breakers
  norm_num [orderEnv, fullState, count_today_trades, get_portfolio_value]

/-- C5 witness: the theorem at the concrete 3-of-3 scenario — the breaker
check passes, the keys are distinct, and a 4th qualifying BTC signal leaves
the map at its 3 entries. -/
theorem C5_witness :
    check_circuit_breakers (orderEnv .ok) fullState = (true, fullState) ∧
    ((fullState.open_positions.map Prod.fst).Nodup ∧
     (((lookupKey (monitor_positions (orderEnv .ok) fullState).open_positions
          "BTC").isSome →
        (trading_iteration testConfig (orderEnv .ok) fullState).1.open_positions =
          (monitor_positions (orderEnv .ok) fullState).open_positions) ∧
      ((3:ℕ) ≤ (monitor_positions (orderEnv .ok) fullState).open_positions.length →
        (trading_iteration testConfig (orderEnv .ok) fullState).1.open_positions =
          (monitor_positions (orderEnv .ok) fullState).open_positions) ∧
      ((trading_iteration testConfig (orderEnv .ok) fullState).1.open_positions.map
          Prod.fst).Nodup ∧
      (trading_iteration testConfig (orderEnv .ok) fullState).1.open_positions.length ≤
        max fullState.open_positions.length 3)) := by
  refine ⟨fullState_breaker_ok .ok, by decide, ?_⟩
  exact C5_position_limits testConfig (orderEnv .ok) fullState fullState
    (fullState_breaker_ok .ok) (by decide)

theorem iteration_raised_order (cfg : TraderConfig) (env : TickEnv)
    (st2 : TraderState) (sig : Signal) (msg : String)
    (hf : env.fetch_result = .ok ())
    (hs : env.signals.getLast? = some sig)
    (hconf : ¬ sig.confidence < cfg.min_confidence)
    (hlook : lookupKey st2.open_positions cfg.default_symbol = none)
    (hlen : ¬ cfg.max_open_positions ≤ st2.open_positions.length)
    (hsize : calculate_position_size (get_portfolio_value env st2)
        sig.entry_price sig.stop_loss sig.confidence
        env.current_atr env.baseline_atr
        (count_consecutive_wins st2.trade_history)
        (count_consecutive_losses st2.trade_history) cfg.risk_params ≠ 0)
    (hprice : ¬ env.current_price cfg.default_symbol ≤ 0)
    (ho : env.order_result = .raised msg) :
    iteration_after_monitor cfg env st2 =
      (if anyKeyword msg critical_keywords then
        ({ st2 with circuit_breaker_triggered := true, is_running := false },
         .criticalStop)
      else if anyKeyword msg place_transient_keywords then
        (st2, .transientPause)
      else (st2, .completed)) := by
  unfold iteration_after_monitor
  rw [hf]
  dsimp only
  rw [hs]
  dsimp only
  rw [if_neg hconf, hlook]
  simp only [Option.isSome_none, Bool.false_eq_true, if_false]
  rw [if_neg hlen, if_neg hsize]
  unfold place_order
  dsimp only
  rw [if_neg hprice, ho]
  dsimp only
  by_cases hcrit : anyKeyword msg critical_keywords
  · rw [if_pos hcrit, if_pos hcrit]
  · rw [if_neg hcrit, if_neg hcrit]
    by_cases htrans : anyKeyword msg place_transient_keywords
    · rw [if_pos htrans, if_pos htrans]
    · rw [if_neg htrans, if_neg htrans]

/-- C7 (amended): for every exception raised by the venue order call inside
`_place_order` in a tick that reaches order placement: a message holding a
critical keyword (invalid, unauthorized, forbidden, insufficient, locked —
checked first) re-raises as `CriticalError`, which trips the breaker flag and
stops the loop entirely; a message holding only a transient keyword (timeout,
connection, network, temporary, rate limit, unavailable) re-raises as
`TransientError`, and the loop continues, retrying next tick after the short
(5 s) backoff; any other message is logged inside `_place_order` and
swallowed there, so the loop continues **immediately, with no backoff at
all** (the generic 10 s unknown-error pause of `_trading_iteration` is never
reached for order-placement errors), and no position or trade is recorded. -/
theorem C7_order_error_taxonomy (cfg : TraderConfig) (env : TickEnv)
    (st st1 : TraderState) (sig : Signal) (msg : String)
    (hcb : check_circuit_breakers env st = (true, st1))
    (hf : env.fetch_result = .ok ())
    (hs : env.signals.getLast? = some sig)
    (hconf : ¬ sig.confidence < cfg.min_confidence)
    (hlook : lookupKey (monitor_positions env st1).open_positions
        cfg.default_symbol = none)
    (hlen : ¬ cfg.max_open_positions ≤
        (monitor_positions env st1).open_positions.length)
    (hsize : calculate_position_size
        (get_portfolio_value env (monitor_positions env st1))
        sig.entry_price sig.stop_loss sig.confidence
        env.current_atr env.baseline_atr
        (count_consecutive_wins (monitor_positions env st1).trade_history)
        (count_consecutive_losses (monitor_positions env st1).trade_history)
        cfg.risk_params ≠ 0)
    (hprice : ¬ env.current_price cfg.default_symbol ≤ 0)
    (ho : env.order_result = .raised msg) :
    (anyKeyword msg critical_keywords = true →
      trading_iteration cfg env st =
        ({ monitor_positions env st1 with circuit_breaker_triggered := true,
                                          is_running := false },
         .criticalStop)) ∧
    (anyKeyword msg critical_keywords = false →
      anyKeyword msg place_transient_keywords = true →
      trading_iteration cfg env st =
        (monitor_positions env st1, .transientPause)) ∧
    (anyKeyword msg critical_keywords = false →
      anyKeyword msg place_transient_keywords = false →
      trading_iteration cfg env st = (monitor_positions env st1, .completed)) := by
  have hred := trading_iteration_breaker_ok cfg env st st1 hcb
  have hbody := iteration_raised_order cfg env (monitor_positions env st1) sig msg
    hf hs hconf hlook hlen hsize hprice ho
  rw [hred, hbody]
  refine ⟨?_, ?_, ?_⟩
  · intro hcrit
    rw [if_pos hcrit]
  · intro hcrit htrans
    rw [if_neg (by simp [hcrit]), if_pos htrans]
  · intro hcrit htrans
    rw [if_neg (by simp [hcrit]), if_neg (by simp [htrans])]

/-- The trader state of the order-placement scenarios: nothing open yet,
healthy balance. -/
def emptyTraderState : TraderState :=
  { open_positions := []
    trade_history := []
    starting_balance := 100000
    max_daily_drawdown := 1/5
    max_daily_trades := 50
    circuit_breaker_triggered := false
    circuit_breaker_date := 7
    is_running := true
    simulation_mode := false }

theorem emptyState_breaker_ok (o : OrderOutcome) :
    check_circuit_breakers (orderEnv o) emptyTraderState =
      (true, emptyTraderState) := by
  unfold check_circuit_breakers
  norm_num [orderEnv, emptyTraderState, count_today_trades, get_portfolio_value]

theorem qualifying_size_nonzero :
    calculate_position_size 100000 50000 49000 80 1 1 0 0
      testConfig.risk_params ≠ 0 := by
  norm_num [calculate_position_size, testConfig, min_def]

/-- C7 counterexample.  The claim says an order-placement error whose message
matches neither vocabulary is "logged and the loop continues with a longer
backoff".  With the venue order call raising "exchange exploded" (no critical
keyword, no transient keyword) in a tick that reaches order placement, the
error is swallowed inside `_place_order` itself: the iteration finishes as
`.completed` — not `.unknownPause` (the 10 s longer-backoff path, which is
unreachable for order-placement errors) and not `.transientPause` — with no
backoff of any kind and no position or trade recorded. -/
theorem C7_counterexample :
    anyKeyword "exchange exploded" critical_keywords = false ∧
    anyKeyword "exchange exploded" place_transient_keywords = false ∧
    trading_iteration testConfig (orderEnv (.raised "exchange exploded"))
      emptyTraderState = (emptyTraderState, .completed) ∧
    IterOutcome.completed ≠ IterOutcome.unknownPause ∧
    IterOutcome.completed ≠ IterOutcome.transientPause := by
  have h1 : anyKeyword "exchange exploded" critical_keywords = false := by decide
  have h2 : anyKeyword "exchange exploded" place_transient_keywords = false := by
    decide
  refine ⟨h1, h2, ?_, by decide, by decide⟩
  have hred := trading_iteration_breaker_ok testConfig
    (orderEnv (.raised "exchange exploded")) emptyTraderState emptyTraderState
    (emptyState_breaker_ok _)
  have hmon : monitor_positions (orderEnv (.raised "exchange exploded"))
      emptyTraderState = emptyTraderState := rfl
  have hbody := iteration_raised_order testConfig
    (orderEnv (.raised "exchange exploded")) emptyTraderState qualifyingSignal
    "exchange exploded" rfl rfl (by decide) rfl (by decide)
    qualifying_size_nonzero (by decide) rfl
  rw [hred, hmon, hbody, if_neg (by simp [h1]), if_neg (by simp [h2])]

/-- C7 witness: the amended theorem at two concrete order-placement errors —
a critical "invalid order size" (loop stops, breaker flagged) and a transient
"request timeout" (loop pauses 5 s and continues). -/
theorem C7_witness :
    (anyKeyword "invalid order size" critical_keywords = true ∧
     trading_iteration testConfig (orderEnv (.raised "invalid order size"))
       emptyTraderState =
       ({ monitor_positions (orderEnv (.raised "invalid order size"))
            emptyTraderState with
          circuit_breaker_triggered := true, is_running := false },
        .criticalStop)) ∧
    (anyKeyword "request timeout" critical_keywords = false ∧
     anyKeyword "request timeout" place_transient_keywords = true ∧
     trading_iteration testConfig (orderEnv (.raised "request timeout"))
       emptyTraderState =
       (monitor_positions (orderEnv (.raised "request timeout")) emptyTraderState,
        .transientPause)) := by
  constructor
  · refine ⟨by decide, ?_⟩
    exact (C7_order_error_taxonomy testConfig
      (orderEnv (.raised "invalid order size")) emptyTraderState emptyTraderState
      qualifyingSignal "invalid order size" (emptyState_breaker_ok _) rfl rfl
      (by decide) rfl (by decide) qualifying_size_nonzero (by decide) rfl).1
      (by decide)
  · refine ⟨by decide, by decide, ?_⟩
    exact (C7_order_error_taxonomy testConfig
      (orderEnv (.raised "request timeout")) emptyTraderState emptyTraderState
      qualifyingSignal "request timeout" (emptyState_breaker_ok _) rfl rfl
      (by decide) rfl (by decide) qualifying_size_nonzero (by decide) rfl).2.1
      (by decide) (by decide)
